import Mathlib

/-!
Shallow embedding of the notokeisho/voice-server admin front-end and the
macOS client settings panel, together with proofs of the behavioural
properties stated about them.

Each React page keeps its component state in a record; every async event
handler of the source is embedded as a pure function from the handler's
remote-call outcomes (passed as explicit Except values) and the pre-state
to the post-state together with the list of API calls the handler issued,
in issue order.  A value thrown by a remote call is either a JS Error
object carrying a message or some other value (the source discriminates
with instanceof Error).  Buttons rendered with a disabled prop are
embedded as a click function that runs the handler only when the disabled
predicate is false, exactly as the DOM does.
-/

/-- A value rejected by a remote call: either a JS Error object with its
message string, or any other thrown value (not an instanceof Error). -/
inductive JsError where
  | jsError (message : String)
  | nonError
deriving Repr, DecidableEq

/-- The display string the pages derive from a caught value:
the message when it is an Error instance, otherwise the page's fallback
(err instanceof Error ? err.message : fallback). -/
def JsError.displayMessage (fallback : String) : JsError → String
  | .jsError m => m
  | .nonError => fallback

/-- A whitelist entry as returned by the API (fields used by the page). -/
structure WhitelistEntry where
  id : Nat
  github_id : String
  created_at : String
deriving Repr, DecidableEq

/-- A user record as returned by the API (fields used by the pages). -/
structure User where
  id : Nat
  github_id : String
  github_username : Option String
  github_avatar : Option String
  is_admin : Bool
  created_at : Option String
  last_login_at : Option String
deriving Repr, DecidableEq

/-- A dictionary entry (global or personal) as returned by the API. -/
structure DictionaryEntry where
  id : Nat
  pattern : String
  replacement : String
  created_at : String
deriving Repr, DecidableEq

/-- One network request issued by the client, identified by the api
function invoked and its arguments. -/
inductive ApiCall where
  | getWhitelist
  | addToWhitelist (githubId : String)
  | removeFromWhitelist (id : Nat)
  | getUsers
  | getMe
  | deleteUser (id : Nat)
  | updateUser (id : Nat) (isAdmin : Bool)
  | getGlobalDictionary
  | addGlobalDictionaryEntry (pattern replacement : String)
  | deleteGlobalDictionaryEntry (id : Nat)
  | clientAddEntry (pattern replacement : String)
deriving Repr, DecidableEq

/-- True exactly on removeFromWhitelist calls. -/
def ApiCall.isRemoveFromWhitelist : ApiCall → Bool
  | .removeFromWhitelist _ => true
  | _ => false

/-- Leading- and trailing-whitespace strip: the embedding of JS
String.prototype.trim() and of Swift trimmingCharacters(in: .whitespaces)
(the precise whitespace character sets differ only in exotic code points,
which no stated property involves).  Implemented over the character list
so that it reduces inside the kernel. -/
def jsTrim (s : String) : String :=
  ⟨((s.data.dropWhile Char.isWhitespace).reverse.dropWhile Char.isWhitespace).reverse⟩

/-! ## WhitelistPage (src/admin-web/src/pages/Whitelist.tsx) -/

/-- Component state of WhitelistPage (the useState hooks, in order). -/
structure WhitelistState where
  entries : List WhitelistEntry
  loading : Bool
  error : Option String
  newGithubId : String
  adding : Bool
  deleteTarget : Option WhitelistEntry
  deleting : Bool
deriving Repr, DecidableEq

/-- Initial WhitelistPage state (the useState initial values). -/
def WhitelistState.init : WhitelistState :=
  { entries := [], loading := true, error := none, newGithubId := ""
    adding := false, deleteTarget := none, deleting := false }

/-- fetchWhitelist: setLoading(true); await getWhitelist(); on success
setEntries(data) and setError(null), on throw setError(message or
fallback); finally setLoading(false).  The getWhitelist request is issued
in every run; its outcome is the listResult parameter. -/
def WhitelistPage.fetchWhitelist (listResult : Except JsError (List WhitelistEntry))
    (s : WhitelistState) : WhitelistState × List ApiCall :=
  let s1 := { s with loading := true }
  match listResult with
  | .ok data =>
      ({ s1 with entries := data, error := none, loading := false }, [.getWhitelist])
  | .error e =>
      ({ s1 with error := some (e.displayMessage "Failed to fetch whitelist"),
                 loading := false }, [.getWhitelist])

/-- handleAdd: returns untouched unless newGithubId.trim() is nonempty;
then setAdding(true), await addToWhitelist(trimmed), on success clear the
input and await fetchWhitelist(), on throw setError; finally
setAdding(false). -/
def WhitelistPage.handleAdd (addResult : Except JsError WhitelistEntry)
    (listResult : Except JsError (List WhitelistEntry))
    (s : WhitelistState) : WhitelistState × List ApiCall :=
  if (jsTrim s.newGithubId).isEmpty then (s, [])
  else
    let s1 := { s with adding := true }
    match addResult with
    | .ok _ =>
        let s2 := { s1 with newGithubId := "" }
        let p := WhitelistPage.fetchWhitelist listResult s2
        ({ p.1 with adding := false }, .addToWhitelist (jsTrim s.newGithubId) :: p.2)
    | .error e =>
        ({ s1 with error := some (e.displayMessage "Failed to add to whitelist"),
                   adding := false }, [.addToWhitelist (jsTrim s.newGithubId)])

/-- handleDelete: returns untouched unless deleteTarget is set; then
setDeleting(true), await removeFromWhitelist(target.id), on success clear
deleteTarget and await fetchWhitelist(), on throw setError; finally
setDeleting(false). -/
def WhitelistPage.handleDelete (deleteResult : Except JsError Unit)
    (listResult : Except JsError (List WhitelistEntry))
    (s : WhitelistState) : WhitelistState × List ApiCall :=
  match s.deleteTarget with
  | none => (s, [])
  | some target =>
    let s1 := { s with deleting := true }
    match deleteResult with
    | .ok _ =>
        let s2 := { s1 with deleteTarget := none }
        let p := WhitelistPage.fetchWhitelist listResult s2
        ({ p.1 with deleting := false }, .removeFromWhitelist target.id :: p.2)
    | .error e =>
        ({ s1 with error := some (e.displayMessage "Failed to remove from whitelist"),
                   deleting := false }, [.removeFromWhitelist target.id])

/-- Disabled prop of the delete dialog's confirm button: disabled={deleting}. -/
def WhitelistPage.confirmDeleteDisabled (s : WhitelistState) : Bool :=
  s.deleting

/-- Disabled prop of the add form submit button:
disabled={adding || !newGithubId.trim()}. -/
def WhitelistPage.addButtonDisabled (s : WhitelistState) : Bool :=
  s.adding || (jsTrim s.newGithubId).isEmpty

/-- A click on the delete dialog's confirm button: the DOM drops the click
while the button is disabled, otherwise the onClick handler handleDelete
runs. -/
def WhitelistPage.clickConfirmDelete (deleteResult : Except JsError Unit)
    (listResult : Except JsError (List WhitelistEntry))
    (s : WhitelistState) : WhitelistState × List ApiCall :=
  if WhitelistPage.confirmDeleteDisabled s then (s, [])
  else WhitelistPage.handleDelete deleteResult listResult s

/-! ## UsersPage (src/admin-web/src/pages/Users.tsx) -/

/-- Component state of UsersPage (the useState hooks, in order). -/
structure UsersState where
  users : List User
  loading : Bool
  error : Option String
  deleteTarget : Option User
  deleting : Bool
deriving Repr, DecidableEq

/-- Initial UsersPage state (the useState initial values). -/
def UsersState.init : UsersState :=
  { users := [], loading := true, error := none, deleteTarget := none
    deleting := false }

/-- fetchUsers: setLoading(true); await getUsers(); on success
setUsers(data) and setError(null), on throw setError(message or
fallback); finally setLoading(false). -/
def UsersPage.fetchUsers (listResult : Except JsError (List User))
    (s : UsersState) : UsersState × List ApiCall :=
  let s1 := { s with loading := true }
  match listResult with
  | .ok data =>
      ({ s1 with users := data, error := none, loading := false }, [.getUsers])
  | .error e =>
      ({ s1 with error := some (e.displayMessage "Failed to fetch users"),
                 loading := false }, [.getUsers])

/-- handleDelete: returns untouched unless deleteTarget is set; then
setDeleting(true), await deleteUser(target.id), on success clear
deleteTarget and await fetchUsers(), on throw setError; finally
setDeleting(false). -/
def UsersPage.handleDelete (deleteResult : Except JsError Unit)
    (listResult : Except JsError (List User))
    (s : UsersState) : UsersState × List ApiCall :=
  match s.deleteTarget with
  | none => (s, [])
  | some target =>
    let s1 := { s with deleting := true }
    match deleteResult with
    | .ok _ =>
        let s2 := { s1 with deleteTarget := none }
        let p := UsersPage.fetchUsers listResult s2
        ({ p.1 with deleting := false }, .deleteUser target.id :: p.2)
    | .error e =>
        ({ s1 with error := some (e.displayMessage "Failed to delete user"),
                   deleting := false }, [.deleteUser target.id])

/-- Disabled prop of the per-row delete button: disabled={user.is_admin}. -/
def UsersPage.rowDeleteDisabled (u : User) : Bool :=
  u.is_admin

/-- A click on the delete button of the row rendered for user u: the row
exists only for a member of the displayed list, the DOM drops the click
while the button is disabled, and otherwise onClick runs
setDeleteTarget(user). -/
def UsersPage.clickRowDelete (u : User) (s : UsersState) : UsersState :=
  if u ∈ s.users ∧ UsersPage.rowDeleteDisabled u = false then
    { s with deleteTarget := some u }
  else s

/-- Disabled prop of the delete dialog's confirm button: disabled={deleting}. -/
def UsersPage.confirmDeleteDisabled (s : UsersState) : Bool :=
  s.deleting

/-- A click on the delete dialog's confirm button (runs handleDelete
unless the button is disabled). -/
def UsersPage.clickConfirmDelete (deleteResult : Except JsError Unit)
    (listResult : Except JsError (List User))
    (s : UsersState) : UsersState × List ApiCall :=
  if UsersPage.confirmDeleteDisabled s then (s, [])
  else UsersPage.handleDelete deleteResult listResult s

/-- One UI event on the UsersPage screen: a completed fetch (mount effect
or re-fetch), a click on a row's delete button, a click on the dialog's
confirm button (with the outcomes of the calls it triggers), or closing
the dialog (cancel button / onOpenChange, both setDeleteTarget(null)). -/
inductive UsersEvent where
  | load (listResult : Except JsError (List User))
  | rowDelete (u : User)
  | confirmDelete (deleteResult : Except JsError Unit)
      (listResult : Except JsError (List User))
  | closeDialog

/-- Effect of one UsersPage event on the state, with the API calls issued. -/
def UsersPage.step (s : UsersState) : UsersEvent → UsersState × List ApiCall
  | .load r => UsersPage.fetchUsers r s
  | .rowDelete u => (UsersPage.clickRowDelete u s, [])
  | .confirmDelete dr lr => UsersPage.clickConfirmDelete dr lr s
  | .closeDialog => ({ s with deleteTarget := none }, [])

/-- Run a sequence of UsersPage events, accumulating issued API calls. -/
def UsersPage.run (s : UsersState) : List UsersEvent → UsersState × List ApiCall
  | [] => (s, [])
  | e :: es =>
      let p := UsersPage.step s e
      let q := UsersPage.run p.1 es
      (q.1, p.2 ++ q.2)

/-! ## DictionaryPage (global dictionary admin page, src/unnamed/part_001) -/

/-- Component state of DictionaryPage (the useState hooks, in order). -/
structure DictState where
  entries : List DictionaryEntry
  loading : Bool
  error : Option String
  pattern : String
  replacement : String
  adding : Bool
  deleteTarget : Option DictionaryEntry
  deleting : Bool
deriving Repr, DecidableEq

/-- Initial DictionaryPage state (the useState initial values). -/
def DictState.init : DictState :=
  { entries := [], loading := true, error := none, pattern := ""
    replacement := "", adding := false, deleteTarget := none, deleting := false }

/-- fetchDictionary: setLoading(true); await getGlobalDictionary(); on
success setEntries(data) and setError(null), on throw setError(message or
fallback); finally setLoading(false). -/
def DictionaryPage.fetchDictionary (listResult : Except JsError (List DictionaryEntry))
    (s : DictState) : DictState × List ApiCall :=
  let s1 := { s with loading := true }
  match listResult with
  | .ok data =>
      ({ s1 with entries := data, error := none, loading := false }, [.getGlobalDictionary])
  | .error e =>
      ({ s1 with error := some (e.displayMessage "Failed to fetch dictionary"),
                 loading := false }, [.getGlobalDictionary])

/-- handleAdd: returns untouched unless both pattern.trim() and
replacement.trim() are nonempty; then setAdding(true), await
addGlobalDictionaryEntry(trimmed pattern, trimmed replacement), on
success clear both inputs and await fetchDictionary(), on throw setError;
finally setAdding(false). -/
def DictionaryPage.handleAdd (addResult : Except JsError DictionaryEntry)
    (listResult : Except JsError (List DictionaryEntry))
    (s : DictState) : DictState × List ApiCall :=
  if (jsTrim s.pattern).isEmpty || (jsTrim s.replacement).isEmpty then (s, [])
  else
    let s1 := { s with adding := true }
    match addResult with
    | .ok _ =>
        let s2 := { s1 with pattern := "", replacement := "" }
        let p := DictionaryPage.fetchDictionary listResult s2
        ({ p.1 with adding := false },
         .addGlobalDictionaryEntry (jsTrim s.pattern) (jsTrim s.replacement) :: p.2)
    | .error e =>
        ({ s1 with error := some (e.displayMessage "Failed to add entry"),
                   adding := false },
         [.addGlobalDictionaryEntry (jsTrim s.pattern) (jsTrim s.replacement)])

/-- handleDelete: returns untouched unless deleteTarget is set; then
setDeleting(true), await deleteGlobalDictionaryEntry(target.id), on
success clear deleteTarget and await fetchDictionary(), on throw
setError; finally setDeleting(false). -/
def DictionaryPage.handleDelete (deleteResult : Except JsError Unit)
    (listResult : Except JsError (List DictionaryEntry))
    (s : DictState) : DictState × List ApiCall :=
  match s.deleteTarget with
  | none => (s, [])
  | some target =>
    let s1 := { s with deleting := true }
    match deleteResult with
    | .ok _ =>
        let s2 := { s1 with deleteTarget := none }
        let p := DictionaryPage.fetchDictionary listResult s2
        ({ p.1 with deleting := false }, .deleteGlobalDictionaryEntry target.id :: p.2)
    | .error e =>
        ({ s1 with error := some (e.displayMessage "Failed to delete entry"),
                   deleting := false }, [.deleteGlobalDictionaryEntry target.id])

/-! ## UsersPage, second variant with roles and current user
(src/unnamed/part_002) -/

/-- Component state of the part_002 UsersPage (the useState hooks, in order). -/
structure UsersBState where
  users : List User
  currentUser : Option User
  loading : Bool
  error : Option String
  deleteTarget : Option User
  deleting : Bool
  roleChangeTarget : Option User
  changingRole : Bool
deriving Repr, DecidableEq

/-- Initial part_002 UsersPage state (the useState initial values). -/
def UsersBState.init : UsersBState :=
  { users := [], currentUser := none, loading := true, error := none
    deleteTarget := none, deleting := false, roleChangeTarget := none
    changingRole := false }

/-- fetchData: setLoading(true); await Promise.all([getUsers(), getMe()]);
when both resolve, setUsers, setCurrentUser and setError(null); when
either rejects Promise.all rejects and neither setter runs, only setError;
finally setLoading(false).  Both requests are issued in every run.  When
both reject, the rejection reason is the one that settles first; the
getUsers reason is used here (which reason wins has no bearing on any
stated property). -/
def UsersPageB.fetchData (usersResult : Except JsError (List User))
    (meResult : Except JsError User)
    (s : UsersBState) : UsersBState × List ApiCall :=
  let s1 := { s with loading := true }
  match usersResult, meResult with
  | .ok usersData, .ok meData =>
      ({ s1 with users := usersData, currentUser := some meData, error := none,
                 loading := false }, [.getUsers, .getMe])
  | .error e, _ =>
      ({ s1 with error := some (e.displayMessage "Failed to fetch data"),
                 loading := false }, [.getUsers, .getMe])
  | _, .error e =>
      ({ s1 with error := some (e.displayMessage "Failed to fetch data"),
                 loading := false }, [.getUsers, .getMe])

/-- handleDelete: returns untouched unless deleteTarget is set; then
setDeleting(true), await deleteUser(target.id), on success clear
deleteTarget and await fetchData(), on throw setError; finally
setDeleting(false). -/
def UsersPageB.handleDelete (deleteResult : Except JsError Unit)
    (usersResult : Except JsError (List User)) (meResult : Except JsError User)
    (s : UsersBState) : UsersBState × List ApiCall :=
  match s.deleteTarget with
  | none => (s, [])
  | some target =>
    let s1 := { s with deleting := true }
    match deleteResult with
    | .ok _ =>
        let s2 := { s1 with deleteTarget := none }
        let p := UsersPageB.fetchData usersResult meResult s2
        ({ p.1 with deleting := false }, .deleteUser target.id :: p.2)
    | .error e =>
        ({ s1 with error := some (e.displayMessage "Failed to delete user"),
                   deleting := false }, [.deleteUser target.id])

/-- handleRoleChange: returns untouched unless roleChangeTarget is set;
then setChangingRole(true), await updateUser(target.id, !target.is_admin),
on success clear roleChangeTarget and await fetchData(), on throw
setError; finally setChangingRole(false). -/
def UsersPageB.handleRoleChange (updateResult : Except JsError User)
    (usersResult : Except JsError (List User)) (meResult : Except JsError User)
    (s : UsersBState) : UsersBState × List ApiCall :=
  match s.roleChangeTarget with
  | none => (s, [])
  | some target =>
    let s1 := { s with changingRole := true }
    match updateResult with
    | .ok _ =>
        let s2 := { s1 with roleChangeTarget := none }
        let p := UsersPageB.fetchData usersResult meResult s2
        ({ p.1 with changingRole := false }, .updateUser target.id (!target.is_admin) :: p.2)
    | .error e =>
        ({ s1 with error := some (e.displayMessage "Failed to change role"),
                   changingRole := false }, [.updateUser target.id (!target.is_admin)])

/-- isCurrentUser: currentUser?.id === user.id (false when currentUser is
null, since undefined === id is false). -/
def UsersPageB.isCurrentUser (s : UsersBState) (u : User) : Bool :=
  match s.currentUser with
  | some cu => cu.id == u.id
  | none => false

/-- Disabled prop of the per-row delete button: disabled={user.is_admin}. -/
def UsersPageB.rowDeleteDisabled (u : User) : Bool :=
  u.is_admin

/-- Disabled prop of the per-row role-change button:
disabled={isCurrentUser(user)}. -/
def UsersPageB.rowRoleChangeDisabled (s : UsersBState) (u : User) : Bool :=
  UsersPageB.isCurrentUser s u

/-- A click on the delete button of the row rendered for user u: the row
exists only for a member of the displayed list, the DOM drops the click
while the button is disabled, otherwise onClick runs setDeleteTarget(user). -/
def UsersPageB.clickRowDelete (u : User) (s : UsersBState) : UsersBState :=
  if u ∈ s.users ∧ UsersPageB.rowDeleteDisabled u = false then
    { s with deleteTarget := some u }
  else s

/-- A click on the role-change button of the row rendered for user u
(onClick runs setRoleChangeTarget(user) unless the button is disabled). -/
def UsersPageB.clickRowRoleChange (u : User) (s : UsersBState) : UsersBState :=
  if u ∈ s.users ∧ UsersPageB.rowRoleChangeDisabled s u = false then
    { s with roleChangeTarget := some u }
  else s

/-- A click on the delete dialog's confirm button (disabled={deleting}). -/
def UsersPageB.clickConfirmDelete (deleteResult : Except JsError Unit)
    (usersResult : Except JsError (List User)) (meResult : Except JsError User)
    (s : UsersBState) : UsersBState × List ApiCall :=
  if s.deleting then (s, [])
  else UsersPageB.handleDelete deleteResult usersResult meResult s

/-- A click on the role dialog's confirm button (disabled={changingRole}). -/
def UsersPageB.clickConfirmRoleChange (updateResult : Except JsError User)
    (usersResult : Except JsError (List User)) (meResult : Except JsError User)
    (s : UsersBState) : UsersBState × List ApiCall :=
  if s.changingRole then (s, [])
  else UsersPageB.handleRoleChange updateResult usersResult meResult s

/-- One UI event on the part_002 UsersPage screen. -/
inductive UsersBEvent where
  | load (usersResult : Except JsError (List User)) (meResult : Except JsError User)
  | rowDelete (u : User)
  | rowRoleChange (u : User)
  | confirmDelete (deleteResult : Except JsError Unit)
      (usersResult : Except JsError (List User)) (meResult : Except JsError User)
  | confirmRoleChange (updateResult : Except JsError User)
      (usersResult : Except JsError (List User)) (meResult : Except JsError User)
  | closeDeleteDialog
  | closeRoleDialog

/-- Effect of one part_002 UsersPage event on the state, with the API
calls issued. -/
def UsersPageB.step (s : UsersBState) : UsersBEvent → UsersBState × List ApiCall
  | .load ru rm => UsersPageB.fetchData ru rm s
  | .rowDelete u => (UsersPageB.clickRowDelete u s, [])
  | .rowRoleChange u => (UsersPageB.clickRowRoleChange u s, [])
  | .confirmDelete dr ru rm => UsersPageB.clickConfirmDelete dr ru rm s
  | .confirmRoleChange ur ru rm => UsersPageB.clickConfirmRoleChange ur ru rm s
  | .closeDeleteDialog => ({ s with deleteTarget := none }, [])
  | .closeRoleDialog => ({ s with roleChangeTarget := none }, [])

/-- Run a sequence of part_002 UsersPage events, accumulating issued API
calls. -/
def UsersPageB.run (s : UsersBState) : List UsersBEvent → UsersBState × List ApiCall
  | [] => (s, [])
  | e :: es =>
      let p := UsersPageB.step s e
      let q := UsersPageB.run p.1 es
      (q.1, p.2 ++ q.2)

/-! ## AuthCallbackPage (src/unnamed/part_000) -/

/-- JS truthiness of a string-or-null query parameter: null and the empty
string are falsy, every other string is truthy. -/
def jsTruthy : Option String → Bool
  | none => false
  | some s => !s.isEmpty

/-- Observable effects of the AuthCallbackPage mount effect. -/
structure AuthCallbackResult where
  storedToken : Option String
  navigatedHome : Bool
  error : Option String
deriving Repr, DecidableEq

/-- The AuthCallbackPage useEffect body: read the token and error query
parameters; if (errorParam) then setError(errorParam) and return; else if
(token) then setToken(token) and navigate home (replace); else
setError(No token received).  searchParams.get returns null for an
absent parameter and the raw (possibly empty) string otherwise. -/
def AuthCallbackPage.effect (token errorParam : Option String) : AuthCallbackResult :=
  if jsTruthy errorParam then
    { storedToken := none, navigatedHome := false, error := errorParam }
  else if jsTruthy token then
    { storedToken := token, navigatedHome := true, error := none }
  else
    { storedToken := none, navigatedHome := false, error := some "No token received" }

/-! ## DictionarySettingsView (src/client/.../Views/SettingsView.swift)
and its DictionaryService collaborator -/

/-- Published state of the client DictionaryService observable object
(fields the view reads). -/
structure DictServiceState where
  entries : List DictionaryEntry
  isLoading : Bool
  errorMessage : Option String
deriving Repr, DecidableEq

/-- Modelled from the spec: DictionaryService.maxEntries. The service
type itself is not under src (only the settings view that binds to it
is); the spec caps the personal dictionary at 100 entries, which the view
surfaces verbatim (Dictionary limit reached (100 entries)). -/
def DictionaryService.maxEntries : Nat := 100

/-- Modelled from the spec: DictionaryService.entryCount, the number of
personal-dictionary entries currently held by the service (displayed by
the view as entryCount/maxEntries). -/
def DictionaryService.entryCount (svc : DictServiceState) : Nat :=
  svc.entries.length

/-- Modelled from the spec: DictionaryService.canAddMore, true while the
entry count is below the 100-entry cap. -/
def DictionaryService.canAddMore (svc : DictServiceState) : Bool :=
  DictionaryService.entryCount svc < DictionaryService.maxEntries

/-- canAdd (SettingsView.swift lines 516-521): both text fields nonempty,
the service below its cap, and no load in flight. -/
def DictionarySettingsView.canAdd (newPattern newReplacement : String)
    (svc : DictServiceState) : Bool :=
  !newPattern.isEmpty && !newReplacement.isEmpty &&
    DictionaryService.canAddMore svc && !svc.isLoading

/-- The limit warning row of addEntryForm is rendered exactly when
!service.canAddMore (SettingsView.swift lines 501-510). -/
def DictionarySettingsView.limitWarningShown (svc : DictServiceState) : Bool :=
  !DictionaryService.canAddMore svc

/-- addEntry (SettingsView.swift lines 532-550): bail out without a token;
trim both fields (surrounding whitespace); bail out when either trims
empty; otherwise call service.addEntry with the trimmed values and clear
both fields when it reports success.  Returns the two text-field values
after the action and the calls issued. -/
def DictionarySettingsView.addEntry (authToken : Option String)
    (newPattern newReplacement : String) (success : Bool) :
    (String × String) × List ApiCall :=
  match authToken with
  | none => ((newPattern, newReplacement), [])
  | some _ =>
    let pattern := (jsTrim newPattern)
    let replacement := (jsTrim newReplacement)
    if pattern.isEmpty || replacement.isEmpty then
      ((newPattern, newReplacement), [])
    else
      let fields := if success then ("", "") else (newPattern, newReplacement)
      (fields, [.clientAddEntry pattern replacement])

/-- A click on the add button of addEntryForm: the button carries
disabled(!canAdd), so the action runs only while canAdd holds. -/
def DictionarySettingsView.clickAdd (authToken : Option String)
    (newPattern newReplacement : String) (svc : DictServiceState)
    (success : Bool) : (String × String) × List ApiCall :=
  if DictionarySettingsView.canAdd newPattern newReplacement svc then
    DictionarySettingsView.addEntry authToken newPattern newReplacement success
  else ((newPattern, newReplacement), [])

/-! ## Behavioural properties -/

/-- C1: for every successful load() on a list screen (users, whitelist,
global dictionary), the items stored in state equal exactly the sequence
returned by the remote list() collaborator, in the server's order, with
no reordering, filtering, or insertion by the client. -/
theorem load_success_stores_server_list_exactly :
    (∀ (data : List WhitelistEntry) (s : WhitelistState),
        (WhitelistPage.fetchWhitelist (.ok data) s).1.entries = data) ∧
    (∀ (data : List User) (s : UsersState),
        (UsersPage.fetchUsers (.ok data) s).1.users = data) ∧
    (∀ (data : List DictionaryEntry) (s : DictState),
        (DictionaryPage.fetchDictionary (.ok data) s).1.entries = data) :=
  ⟨fun _ _ => rfl, fun _ _ => rfl, fun _ _ => rfl⟩

/-- C5: a load() whose collaborator rejects with an Error carrying message
m ends with error = m exactly (the generic fallback appears only for a
non-Error rejection), loading reset to false, and items retaining their
previous value; a successful load() clears error to null. -/
theorem load_failure_message_and_items_retained :
    (∀ (m : String) (s : WhitelistState),
        (WhitelistPage.fetchWhitelist (.error (.jsError m)) s).1.error = some m ∧
        (WhitelistPage.fetchWhitelist (.error (.jsError m)) s).1.loading = false ∧
        (WhitelistPage.fetchWhitelist (.error (.jsError m)) s).1.entries = s.entries) ∧
    (∀ s : WhitelistState,
        (WhitelistPage.fetchWhitelist (.error .nonError) s).1.error =
          some "Failed to fetch whitelist" ∧
        (WhitelistPage.fetchWhitelist (.error .nonError) s).1.loading = false ∧
        (WhitelistPage.fetchWhitelist (.error .nonError) s).1.entries = s.entries) ∧
    (∀ (data : List WhitelistEntry) (s : WhitelistState),
        (WhitelistPage.fetchWhitelist (.ok data) s).1.error = none ∧
        (WhitelistPage.fetchWhitelist (.ok data) s).1.loading = false) ∧
    (∀ (m : String) (s : UsersState),
        (UsersPage.fetchUsers (.error (.jsError m)) s).1.error = some m ∧
        (UsersPage.fetchUsers (.error (.jsError m)) s).1.loading = false ∧
        (UsersPage.fetchUsers (.error (.jsError m)) s).1.users = s.users) ∧
    (∀ s : UsersState,
        (UsersPage.fetchUsers (.error .nonError) s).1.error =
          some "Failed to fetch users" ∧
        (UsersPage.fetchUsers (.error .nonError) s).1.loading = false ∧
        (UsersPage.fetchUsers (.error .nonError) s).1.users = s.users) ∧
    (∀ (data : List User) (s : UsersState),
        (UsersPage.fetchUsers (.ok data) s).1.error = none ∧
        (UsersPage.fetchUsers (.ok data) s).1.loading = false) :=
  ⟨fun _ _ => ⟨rfl, rfl, rfl⟩, fun _ => ⟨rfl, rfl, rfl⟩, fun _ _ => ⟨rfl, rfl⟩,
   fun _ _ => ⟨rfl, rfl, rfl⟩, fun _ => ⟨rfl, rfl, rfl⟩, fun _ _ => ⟨rfl, rfl⟩⟩

/-- C6: the batch load of the users screen (user list and current user
fetched together through Promise.all) is atomic: when both requests
succeed, both results are stored; when either fails, neither users nor
currentUser is updated and the screen reports failure through error;
there is no partial display of one result without the other. -/
theorem users_batch_load_atomic :
    (∀ (s : UsersBState) (us : List User) (me : User),
        (UsersPageB.fetchData (.ok us) (.ok me) s).1.users = us ∧
        (UsersPageB.fetchData (.ok us) (.ok me) s).1.currentUser = some me ∧
        (UsersPageB.fetchData (.ok us) (.ok me) s).1.error = none) ∧
    (∀ (s : UsersBState) (e : JsError) (rm : Except JsError User),
        (UsersPageB.fetchData (.error e) rm s).1.users = s.users ∧
        (UsersPageB.fetchData (.error e) rm s).1.currentUser = s.currentUser ∧
        (UsersPageB.fetchData (.error e) rm s).1.error.isSome = true) ∧
    (∀ (s : UsersBState) (ru : Except JsError (List User)) (e : JsError),
        (UsersPageB.fetchData ru (.error e) s).1.users = s.users ∧
        (UsersPageB.fetchData ru (.error e) s).1.currentUser = s.currentUser ∧
        (UsersPageB.fetchData ru (.error e) s).1.error.isSome = true) := by
  refine ⟨fun _ _ _ => ⟨rfl, rfl, rfl⟩, fun _ _ rm => ?_, fun s ru _ => ?_⟩
  · cases rm <;> exact ⟨rfl, rfl, rfl⟩
  · cases ru <;> exact ⟨rfl, rfl, rfl⟩

/-- Sample whitelist entry used by concrete instantiations. -/
def sampleWhitelistEntry : WhitelistEntry :=
  { id := 42, github_id := "octocat", created_at := "2024-01-01T00:00:00Z" }

/-- Sample non-admin user used by concrete instantiations. -/
def sampleUserMember : User :=
  { id := 1, github_id := "alice", github_username := none, github_avatar := none
    is_admin := false, created_at := none, last_login_at := none }

/-- Sample admin user used by concrete instantiations. -/
def sampleUserAdmin : User :=
  { id := 2, github_id := "root", github_username := some "root"
    github_avatar := none, is_admin := true, created_at := none
    last_login_at := none }

/-- Sample dictionary entry used by concrete instantiations. -/
def sampleDictEntry : DictionaryEntry :=
  { id := 7, pattern := "くろーど", replacement := "Claude"
    created_at := "2024-01-01T00:00:00Z" }

/-- C2: every successful mutation (create, update, delete) issues exactly
one subsequent load(), which starts only after the mutation call
resolved (it follows the mutation call in the issued-call order and
occurs only in the success branch), and the resulting items are the
fresh fetch result, replacing the old list wholesale with no local
splice. -/
theorem mutate_success_refetches_once :
    (∀ (s : WhitelistState) (entry : WhitelistEntry)
        (lr : Except JsError (List WhitelistEntry)),
        (jsTrim s.newGithubId).isEmpty = false →
        (WhitelistPage.handleAdd (.ok entry) lr s).2 =
          [.addToWhitelist (jsTrim s.newGithubId), .getWhitelist]) ∧
    (∀ (s : WhitelistState) (entry : WhitelistEntry) (fresh : List WhitelistEntry),
        (jsTrim s.newGithubId).isEmpty = false →
        (WhitelistPage.handleAdd (.ok entry) (.ok fresh) s).1.entries = fresh) ∧
    (∀ (s : WhitelistState) (t : WhitelistEntry)
        (lr : Except JsError (List WhitelistEntry)),
        s.deleteTarget = some t →
        (WhitelistPage.handleDelete (.ok ()) lr s).2 =
          [.removeFromWhitelist t.id, .getWhitelist]) ∧
    (∀ (s : WhitelistState) (t : WhitelistEntry) (fresh : List WhitelistEntry),
        s.deleteTarget = some t →
        (WhitelistPage.handleDelete (.ok ()) (.ok fresh) s).1.entries = fresh) ∧
    (∀ (s : DictState) (entry : DictionaryEntry)
        (lr : Except JsError (List DictionaryEntry)),
        (jsTrim s.pattern).isEmpty = false → (jsTrim s.replacement).isEmpty = false →
        (DictionaryPage.handleAdd (.ok entry) lr s).2 =
          [.addGlobalDictionaryEntry (jsTrim s.pattern) (jsTrim s.replacement),
           .getGlobalDictionary]) ∧
    (∀ (s : DictState) (entry : DictionaryEntry) (fresh : List DictionaryEntry),
        (jsTrim s.pattern).isEmpty = false → (jsTrim s.replacement).isEmpty = false →
        (DictionaryPage.handleAdd (.ok entry) (.ok fresh) s).1.entries = fresh) ∧
    (∀ (s : UsersState) (t : User) (lr : Except JsError (List User)),
        s.deleteTarget = some t →
        (UsersPage.handleDelete (.ok ()) lr s).2 =
          [.deleteUser t.id, .getUsers]) ∧
    (∀ (s : UsersState) (t : User) (fresh : List User),
        s.deleteTarget = some t →
        (UsersPage.handleDelete (.ok ()) (.ok fresh) s).1.users = fresh) ∧
    (∀ (s : UsersBState) (t : User) (ru : Except JsError (List User))
        (rm : Except JsError User),
        s.roleChangeTarget = some t →
        (UsersPageB.handleRoleChange (.ok t) ru rm s).2 =
          [.updateUser t.id (!t.is_admin), .getUsers, .getMe]) ∧
    (∀ (s : UsersBState) (t : User) (fresh : List User) (me : User),
        s.roleChangeTarget = some t →
        (UsersPageB.handleRoleChange (.ok t) (.ok fresh) (.ok me) s).1.users =
          fresh) := by
  refine ⟨?_, ?_, ?_, ?_, ?_, ?_, ?_, ?_, ?_, ?_⟩
  · intro s entry lr h
    cases lr <;>
      simp [WhitelistPage.handleAdd, WhitelistPage.fetchWhitelist, h]
  · intro s entry fresh h
    simp [WhitelistPage.handleAdd, WhitelistPage.fetchWhitelist, h]
  · intro s t lr h
    cases lr <;>
      simp [WhitelistPage.handleDelete, WhitelistPage.fetchWhitelist, h]
  · intro s t fresh h
    simp [WhitelistPage.handleDelete, WhitelistPage.fetchWhitelist, h]
  · intro s entry lr h1 h2
    cases lr <;>
      simp [DictionaryPage.handleAdd, DictionaryPage.fetchDictionary, h1, h2]
  · intro s entry fresh h1 h2
    simp [DictionaryPage.handleAdd, DictionaryPage.fetchDictionary, h1, h2]
  · intro s t lr h
    cases lr <;>
      simp [UsersPage.handleDelete, UsersPage.fetchUsers, h]
  · intro s t fresh h
    simp [UsersPage.handleDelete, UsersPage.fetchUsers, h]
  · intro s t ru rm h
    cases ru <;> cases rm <;>
      simp [UsersPageB.handleRoleChange, UsersPageB.fetchData, h]
  · intro s t fresh me h
    simp [UsersPageB.handleRoleChange, UsersPageB.fetchData, h]

/-- C2 witness: concrete successful mutations on each screen. -/
theorem mutate_success_refetches_once_witness :
    (WhitelistPage.handleAdd (.ok sampleWhitelistEntry) (.ok [sampleWhitelistEntry])
        { WhitelistState.init with newGithubId := " octocat " }).2 =
      [.addToWhitelist (jsTrim " octocat "), .getWhitelist] ∧
    (WhitelistPage.handleDelete (.ok ()) (.ok [])
        { WhitelistState.init with deleteTarget := some sampleWhitelistEntry }).1.entries =
      [] ∧
    (UsersPage.handleDelete (.ok ()) (.ok [sampleUserAdmin])
        { UsersState.init with deleteTarget := some sampleUserMember }).1.users =
      [sampleUserAdmin] :=
  ⟨mutate_success_refetches_once.1 _ sampleWhitelistEntry _ (by decide),
   mutate_success_refetches_once.2.2.2.1 _ sampleWhitelistEntry [] rfl,
   mutate_success_refetches_once.2.2.2.2.2.2.2.1 _ sampleUserMember [sampleUserAdmin] rfl⟩

/-- C3: every failed mutation (create, update, delete) leaves the items in
state unchanged, sets error to a non-null string, and triggers no
refetch: the only call issued is the failed mutation call itself. -/
theorem mutate_failure_keeps_items_no_refetch :
    (∀ (s : WhitelistState) (e : JsError)
        (lr : Except JsError (List WhitelistEntry)),
        (jsTrim s.newGithubId).isEmpty = false →
        (WhitelistPage.handleAdd (.error e) lr s).1.entries = s.entries ∧
        (WhitelistPage.handleAdd (.error e) lr s).1.error.isSome = true ∧
        (WhitelistPage.handleAdd (.error e) lr s).2 =
          [.addToWhitelist (jsTrim s.newGithubId)]) ∧
    (∀ (s : WhitelistState) (t : WhitelistEntry) (e : JsError)
        (lr : Except JsError (List WhitelistEntry)),
        s.deleteTarget = some t →
        (WhitelistPage.handleDelete (.error e) lr s).1.entries = s.entries ∧
        (WhitelistPage.handleDelete (.error e) lr s).1.error.isSome = true ∧
        (WhitelistPage.handleDelete (.error e) lr s).2 =
          [.removeFromWhitelist t.id]) ∧
    (∀ (s : UsersState) (t : User) (e : JsError)
        (lr : Except JsError (List User)),
        s.deleteTarget = some t →
        (UsersPage.handleDelete (.error e) lr s).1.users = s.users ∧
        (UsersPage.handleDelete (.error e) lr s).1.error.isSome = true ∧
        (UsersPage.handleDelete (.error e) lr s).2 = [.deleteUser t.id]) ∧
    (∀ (s : DictState) (e : JsError) (lr : Except JsError (List DictionaryEntry)),
        (jsTrim s.pattern).isEmpty = false → (jsTrim s.replacement).isEmpty = false →
        (DictionaryPage.handleAdd (.error e) lr s).1.entries = s.entries ∧
        (DictionaryPage.handleAdd (.error e) lr s).1.error.isSome = true ∧
        (DictionaryPage.handleAdd (.error e) lr s).2 =
          [.addGlobalDictionaryEntry (jsTrim s.pattern) (jsTrim s.replacement)]) := by
  refine ⟨?_, ?_, ?_, ?_⟩
  · intro s e lr h
    refine ⟨?_, ?_, ?_⟩ <;> simp [WhitelistPage.handleAdd, h]
  · intro s t e lr h
    refine ⟨?_, ?_, ?_⟩ <;> simp [WhitelistPage.handleDelete, h]
  · intro s t e lr h
    refine ⟨?_, ?_, ?_⟩ <;> simp [UsersPage.handleDelete, h]
  · intro s e lr h1 h2
    refine ⟨?_, ?_, ?_⟩ <;> simp [DictionaryPage.handleAdd, h1, h2]

/-- C3 witness: concrete failed mutations with a timeout Error. -/
theorem mutate_failure_keeps_items_no_refetch_witness :
    (WhitelistPage.handleDelete (.error (.jsError "timeout")) (.ok [])
        { WhitelistState.init with entries := [sampleWhitelistEntry],
                                   deleteTarget := some sampleWhitelistEntry }).1.entries =
      [sampleWhitelistEntry] ∧
    (DictionaryPage.handleAdd (.error (.jsError "timeout")) (.ok [])
        { DictState.init with pattern := "くろーど", replacement := "Claude" }).2 =
      [.addGlobalDictionaryEntry (jsTrim "くろーど") (jsTrim "Claude")] :=
  ⟨(mutate_failure_keeps_items_no_refetch.2.1 _ sampleWhitelistEntry _ _ rfl).1,
   (mutate_failure_keeps_items_no_refetch.2.2.2 _ _ _ (by decide) (by decide)).2.2⟩

/-- C4: submitting a form whose textual input (pattern, replacement, or
GitHub identifier) is empty after trimming surrounding whitespace issues
no network call: the handler rejects the mutation locally, leaving state
untouched and invoking no create collaborator. -/
theorem trimmed_empty_input_no_network_call :
    (∀ (s : WhitelistState) (ar : Except JsError WhitelistEntry)
        (lr : Except JsError (List WhitelistEntry)),
        (jsTrim s.newGithubId).isEmpty = true →
        WhitelistPage.handleAdd ar lr s = (s, [])) ∧
    (∀ (s : DictState) (ar : Except JsError DictionaryEntry)
        (lr : Except JsError (List DictionaryEntry)),
        (jsTrim s.pattern).isEmpty = true ∨ (jsTrim s.replacement).isEmpty = true →
        DictionaryPage.handleAdd ar lr s = (s, [])) ∧
    (∀ (tok : Option String) (p r : String) (succ : Bool),
        (jsTrim p).isEmpty = true ∨ (jsTrim r).isEmpty = true →
        (DictionarySettingsView.addEntry tok p r succ).2 = []) := by
  refine ⟨?_, ?_, ?_⟩
  · intro s ar lr h
    simp [WhitelistPage.handleAdd, h]
  · intro s ar lr h
    rcases h with h | h <;> simp [DictionaryPage.handleAdd, h]
  · intro tok p r succ h
    cases tok with
    | none => rfl
    | some t => rcases h with h | h <;> simp [DictionarySettingsView.addEntry, h]

/-- C4 witness: whitespace-only inputs on each form issue no call. -/
theorem trimmed_empty_input_no_network_call_witness :
    WhitelistPage.handleAdd (.ok sampleWhitelistEntry) (.ok [])
        { WhitelistState.init with newGithubId := "   " } =
      ({ WhitelistState.init with newGithubId := "   " }, []) ∧
    DictionaryPage.handleAdd (.ok sampleDictEntry) (.ok [])
        { DictState.init with pattern := " ", replacement := "Claude" } =
      ({ DictState.init with pattern := " ", replacement := "Claude" }, []) ∧
    (DictionarySettingsView.addEntry (some "token") "くろーど" "  " true).2 = [] :=
  ⟨trimmed_empty_input_no_network_call.1 _ _ _ (by decide),
   trimmed_empty_input_no_network_call.2.1 _ _ _ (Or.inl (by decide)),
   trimmed_empty_input_no_network_call.2.2 _ _ _ _ (Or.inr (by decide))⟩

/-- C7: while a delete mutation is pending (deleting = true), the confirm
button that invokes handleDelete is disabled, so a second delete trigger
before completion is dropped without any call, and one confirmed
handleDelete run issues at most one removeFromWhitelist call. -/
theorem delete_pending_second_trigger_prevented :
    (∀ s : WhitelistState, s.deleting = true →
        WhitelistPage.confirmDeleteDisabled s = true) ∧
    (∀ (s : WhitelistState) (dr : Except JsError Unit)
        (lr : Except JsError (List WhitelistEntry)),
        s.deleting = true →
        WhitelistPage.clickConfirmDelete dr lr s = (s, [])) ∧
    (∀ (s : WhitelistState) (dr : Except JsError Unit)
        (lr : Except JsError (List WhitelistEntry)),
        ((WhitelistPage.handleDelete dr lr s).2.countP
            ApiCall.isRemoveFromWhitelist) ≤ 1) := by
  refine ⟨fun s h => h, ?_, ?_⟩
  · intro s dr lr h
    simp [WhitelistPage.clickConfirmDelete, WhitelistPage.confirmDeleteDisabled, h]
  · intro s dr lr
    rcases hdt : s.deleteTarget with _ | t
    · simp [WhitelistPage.handleDelete, hdt]
    · cases dr with
      | error e =>
          simp [WhitelistPage.handleDelete, hdt, List.countP_cons,
                ApiCall.isRemoveFromWhitelist]
      | ok u =>
          cases lr <;>
            simp [WhitelistPage.handleDelete, WhitelistPage.fetchWhitelist, hdt,
                  List.countP_cons, ApiCall.isRemoveFromWhitelist]

/-- C7 witness: with a delete pending on entry 42, a second confirm click
is a no-op issuing no call. -/
theorem delete_pending_second_trigger_prevented_witness :
    WhitelistPage.clickConfirmDelete (.ok ()) (.ok [])
        { WhitelistState.init with deleteTarget := some sampleWhitelistEntry,
                                   deleting := true } =
      ({ WhitelistState.init with deleteTarget := some sampleWhitelistEntry,
                                  deleting := true }, []) :=
  delete_pending_second_trigger_prevented.2.1 _ (.ok ()) (.ok []) rfl

/-- C8: once the personal dictionary holds the 100-entry maximum, canAdd
is false, so the add control is disabled and a click on it issues no
create call, and the limit warning is rendered. -/
theorem personal_dictionary_cap_enforced (svc : DictServiceState)
    (p r : String) (tok : Option String) (succ : Bool)
    (h : DictionaryService.maxEntries ≤ svc.entries.length) :
    DictionarySettingsView.canAdd p r svc = false ∧
    DictionarySettingsView.clickAdd tok p r svc succ = ((p, r), []) ∧
    DictionarySettingsView.limitWarningShown svc = true := by
  have hcam : DictionaryService.canAddMore svc = false := by
    simp [DictionaryService.canAddMore, DictionaryService.entryCount, Nat.not_lt]
    exact h
  have hca : DictionarySettingsView.canAdd p r svc = false := by
    simp [DictionarySettingsView.canAdd, hcam]
  refine ⟨hca, ?_, ?_⟩
  · simp [DictionarySettingsView.clickAdd, hca]
  · simp [DictionarySettingsView.limitWarningShown, hcam]

/-- C8 witness: a service holding exactly 100 entries disables the add
control and shows the limit warning. -/
theorem personal_dictionary_cap_enforced_witness :
    DictionarySettingsView.canAdd "くろーど" "Claude"
        { entries := List.replicate 100 sampleDictEntry, isLoading := false,
          errorMessage := none } = false ∧
    DictionarySettingsView.clickAdd (some "token") "くろーど" "Claude"
        { entries := List.replicate 100 sampleDictEntry, isLoading := false,
          errorMessage := none } true = (("くろーど", "Claude"), []) ∧
    DictionarySettingsView.limitWarningShown
        { entries := List.replicate 100 sampleDictEntry, isLoading := false,
          errorMessage := none } = true :=
  personal_dictionary_cap_enforced _ _ _ _ _ (by decide)

/-- C10 counterexample: with tok present and an error parameter that is
present but equal to the empty string, the AuthCallbackPage effect stores
the token and navigates, so the error parameter does not take precedence
merely by being contained in the URL. -/
theorem auth_callback_error_precedence_counterexample :
    (some "" : Option String) ≠ none ∧
    AuthCallbackPage.effect (some "tok123") (some "") =
      { storedToken := some "tok123", navigatedHome := true, error := none } :=
  ⟨by decide, rfl⟩

/-- C10 (amended): a non-empty error query parameter takes precedence: the
error is displayed, setToken is never called and no navigation occurs,
even when a token parameter is present; the token is stored and the user
redirected exactly when the error parameter is absent or empty and a
non-empty token is present; when both are absent or empty the error
state becomes No token received. -/
theorem auth_callback_error_precedence :
    (∀ (token : Option String) (m : String), m ≠ "" →
        AuthCallbackPage.effect token (some m) =
          { storedToken := none, navigatedHome := false, error := some m }) ∧
    (∀ (errorParam : Option String) (t : String),
        jsTruthy errorParam = false → t ≠ "" →
        AuthCallbackPage.effect (some t) errorParam =
          { storedToken := some t, navigatedHome := true, error := none }) ∧
    (∀ (token errorParam : Option String),
        jsTruthy token = false → jsTruthy errorParam = false →
        AuthCallbackPage.effect token errorParam =
          { storedToken := none, navigatedHome := false,
            error := some "No token received" }) := by
  refine ⟨?_, ?_, ?_⟩
  · intro token m h
    simp [AuthCallbackPage.effect, jsTruthy, String.isEmpty_iff, h]
  · intro errorParam t he ht
    unfold AuthCallbackPage.effect
    rw [he]
    simp [jsTruthy, String.isEmpty_iff, ht]
  · intro token errorParam ht he
    simp [AuthCallbackPage.effect, ht, he]

/-- C10 witness: concrete callback URLs for each amended branch. -/
theorem auth_callback_error_precedence_witness :
    AuthCallbackPage.effect (some "tok123") (some "access_denied") =
      { storedToken := none, navigatedHome := false,
        error := some "access_denied" } ∧
    AuthCallbackPage.effect (some "tok123") none =
      { storedToken := some "tok123", navigatedHome := true, error := none } ∧
    AuthCallbackPage.effect none none =
      { storedToken := none, navigatedHome := false,
        error := some "No token received" } :=
  ⟨auth_callback_error_precedence.1 _ _ (by decide),
   auth_callback_error_precedence.2.1 none _ rfl (by decide),
   auth_callback_error_precedence.2.2 none none rfl rfl⟩


/-- User records an UsersPage event delivers to the screen: the payload
of a successful getUsers response that the handler actually stores (the
mount/refresh load, or the refetch that runs after a successful delete). -/
def UsersPage.delivered : UsersEvent → List User
  | .load (.ok d) => d
  | .confirmDelete (.ok _) (.ok d) => d
  | _ => []

/-- All user records delivered across an UsersPage event sequence. -/
def UsersPage.deliveredUsers : List UsersEvent → List User
  | [] => []
  | e :: es => UsersPage.delivered e ++ UsersPage.deliveredUsers es

/-- Screen invariant of UsersPage relative to the records D delivered so
far: every displayed row is a delivered record, and the pending delete
target, when set, is a delivered non-admin record. -/
def UsersPage.Inv (D : List User) (s : UsersState) : Prop :=
  (∀ u : User, u ∈ s.users → u ∈ D) ∧
  (∀ u : User, s.deleteTarget = some u → u.is_admin = false ∧ u ∈ D)

/-- Every UsersPage event preserves the screen invariant, extending the
delivered records by the event's own delivery. -/
theorem UsersPage.step_inv {D : List User} {s : UsersState}
    (h : UsersPage.Inv D s) (e : UsersEvent) :
    UsersPage.Inv (D ++ UsersPage.delivered e) (UsersPage.step s e).1 := by
  obtain ⟨hus, hdt⟩ := h
  have hD : ∀ u : User, u ∈ D → u ∈ D ++ UsersPage.delivered e :=
    fun u hu => List.mem_append_left _ hu
  cases e with
  | load r =>
      cases r with
      | ok d =>
          refine ⟨fun u hu => ?_, fun u hu => ?_⟩
          · exact List.mem_append_right _ hu
          · obtain ⟨h1, h2⟩ := hdt u hu
            exact ⟨h1, hD u h2⟩
      | error e0 =>
          refine ⟨fun u hu => hD u (hus u hu), fun u hu => ?_⟩
          obtain ⟨h1, h2⟩ := hdt u hu
          exact ⟨h1, hD u h2⟩
  | rowDelete v =>
      refine ⟨fun u hu => ?_, fun u hu => ?_⟩
      · simp only [UsersPage.step, UsersPage.clickRowDelete] at hu
        split at hu
        · exact hD u (hus u hu)
        · exact hD u (hus u hu)
      · simp only [UsersPage.step, UsersPage.clickRowDelete] at hu
        split at hu
        · next hc =>
            simp only [Option.some.injEq] at hu
            subst hu
            refine ⟨by simpa [UsersPage.rowDeleteDisabled] using hc.2,
                    hD _ (hus _ hc.1)⟩
        · obtain ⟨h1, h2⟩ := hdt u hu
          exact ⟨h1, hD u h2⟩
  | confirmDelete dr lr =>
      refine ⟨fun u hu => ?_, fun u hu => ?_⟩
      · simp only [UsersPage.step, UsersPage.clickConfirmDelete,
                   UsersPage.confirmDeleteDisabled] at hu
        split at hu
        · exact hD u (hus u hu)
        · rcases hdtv : s.deleteTarget with _ | t
          · simp only [UsersPage.handleDelete, hdtv] at hu
            exact hD u (hus u hu)
          · cases dr with
            | ok u0 =>
                cases lr with
                | ok d =>
                    simp only [UsersPage.handleDelete, hdtv,
                               UsersPage.fetchUsers] at hu
                    exact List.mem_append_right _ hu
                | error e0 =>
                    simp only [UsersPage.handleDelete, hdtv,
                               UsersPage.fetchUsers] at hu
                    exact hD u (hus u hu)
            | error e0 =>
                simp only [UsersPage.handleDelete, hdtv] at hu
                exact hD u (hus u hu)
      · simp only [UsersPage.step, UsersPage.clickConfirmDelete,
                   UsersPage.confirmDeleteDisabled] at hu
        split at hu
        · obtain ⟨h1, h2⟩ := hdt u hu
          exact ⟨h1, hD u h2⟩
        · rcases hdtv : s.deleteTarget with _ | t
          · simp only [UsersPage.handleDelete, hdtv] at hu
            exact absurd hu (by simp)
          · cases dr with
            | ok u0 =>
                cases lr <;>
                  simp [UsersPage.handleDelete, hdtv, UsersPage.fetchUsers] at hu
            | error e0 =>
                simp only [UsersPage.handleDelete, hdtv, Option.some.injEq] at hu
                obtain ⟨h1, h2⟩ := hdt t hdtv
                exact hu ▸ ⟨h1, hD t h2⟩
  | closeDialog =>
      refine ⟨fun u hu => hD u (hus u hu), fun u hu => ?_⟩
      simp [UsersPage.step] at hu

/-- Under the invariant, any deleteUser call a single UsersPage event
issues carries the id of a delivered non-admin user record. -/
theorem UsersPage.step_deleteUser_nonadmin {D : List User} {s : UsersState}
    (h : UsersPage.Inv D s) (e : UsersEvent) (i : Nat)
    (hm : ApiCall.deleteUser i ∈ (UsersPage.step s e).2) :
    ∃ u : User, u ∈ D ∧ u.is_admin = false ∧ u.id = i := by
  cases e with
  | load r => cases r <;> simp [UsersPage.step, UsersPage.fetchUsers] at hm
  | rowDelete v => simp [UsersPage.step] at hm
  | closeDialog => simp [UsersPage.step] at hm
  | confirmDelete dr lr =>
      simp only [UsersPage.step, UsersPage.clickConfirmDelete,
                 UsersPage.confirmDeleteDisabled] at hm
      split at hm
      · simp at hm
      · rcases hdt : s.deleteTarget with _ | t
        · simp [UsersPage.handleDelete, hdt] at hm
        · obtain ⟨h1, h2⟩ := h.2 t hdt
          refine ⟨t, h2, h1, ?_⟩
          cases dr with
          | ok u0 =>
              cases lr <;>
                · simp [UsersPage.handleDelete, hdt, UsersPage.fetchUsers] at hm
                  exact hm.symm
          | error e0 =>
              simp [UsersPage.handleDelete, hdt] at hm
              exact hm.symm

/-- Under the invariant, any deleteUser call an UsersPage event sequence
issues carries the id of a user record delivered before or during the
sequence, whose is_admin flag is false. -/
theorem UsersPage.run_deleteUser_nonadmin {D : List User} {s : UsersState}
    (h : UsersPage.Inv D s) (events : List UsersEvent) (i : Nat)
    (hm : ApiCall.deleteUser i ∈ (UsersPage.run s events).2) :
    ∃ u : User, u ∈ D ++ UsersPage.deliveredUsers events ∧
      u.is_admin = false ∧ u.id = i := by
  induction events generalizing s D with
  | nil => simp [UsersPage.run] at hm
  | cons e es ih =>
      simp only [UsersPage.run, List.mem_append] at hm
      rcases hm with hm | hm
      · obtain ⟨u, hu, h1, h2⟩ := UsersPage.step_deleteUser_nonadmin h e i hm
        exact ⟨u, List.mem_append_left _ hu, h1, h2⟩
      · obtain ⟨u, hu, h1, h2⟩ := ih (UsersPage.step_inv h e) hm
        refine ⟨u, ?_, h1, h2⟩
        simp only [UsersPage.deliveredUsers, List.mem_append] at hu ⊢
        tauto

/-- User records a part_002 UsersPage event delivers to the screen: the
getUsers payload of a Promise.all batch that fully succeeds and whose
surrounding handler stores it (the mount/refresh load, or the refetch
after a successful delete or role change). -/
def UsersPageB.deliveredB : UsersBEvent → List User
  | .load (.ok d) (.ok _) => d
  | .confirmDelete (.ok _) (.ok d) (.ok _) => d
  | .confirmRoleChange (.ok _) (.ok d) (.ok _) => d
  | _ => []

/-- All user records delivered across a part_002 UsersPage event
sequence. -/
def UsersPageB.deliveredUsersB : List UsersBEvent → List User
  | [] => []
  | e :: es => UsersPageB.deliveredB e ++ UsersPageB.deliveredUsersB es

/-- Screen invariant of the part_002 UsersPage relative to the records D
delivered so far: every displayed row is a delivered record, and the
pending delete target, when set, is a delivered non-admin record. -/
def UsersPageB.InvB (D : List User) (s : UsersBState) : Prop :=
  (∀ u : User, u ∈ s.users → u ∈ D) ∧
  (∀ u : User, s.deleteTarget = some u → u.is_admin = false ∧ u ∈ D)

/-- Every part_002 UsersPage event preserves the screen invariant,
extending the delivered records by the event's own delivery. -/
theorem UsersPageB.step_invB {D : List User} {s : UsersBState}
    (h : UsersPageB.InvB D s) (e : UsersBEvent) :
    UsersPageB.InvB (D ++ UsersPageB.deliveredB e) (UsersPageB.step s e).1 := by
  obtain ⟨hus, hdt⟩ := h
  have hD : ∀ u : User, u ∈ D → u ∈ D ++ UsersPageB.deliveredB e :=
    fun u hu => List.mem_append_left _ hu
  have hkeep : ∀ u : User, s.deleteTarget = some u →
      u.is_admin = false ∧ u ∈ D ++ UsersPageB.deliveredB e := by
    intro u hu
    obtain ⟨h1, h2⟩ := hdt u hu
    exact ⟨h1, hD u h2⟩
  cases e with
  | load ru rm =>
      cases ru with
      | ok d =>
          cases rm with
          | ok me =>
              exact ⟨fun u hu => List.mem_append_right _ hu, fun u hu => hkeep u hu⟩
          | error e0 =>
              exact ⟨fun u hu => hD u (hus u hu), fun u hu => hkeep u hu⟩
      | error e0 =>
          cases rm with
          | ok me => exact ⟨fun u hu => hD u (hus u hu), fun u hu => hkeep u hu⟩
          | error e1 => exact ⟨fun u hu => hD u (hus u hu), fun u hu => hkeep u hu⟩
  | rowDelete v =>
      refine ⟨fun u hu => ?_, fun u hu => ?_⟩
      · simp only [UsersPageB.step, UsersPageB.clickRowDelete] at hu
        split at hu
        · exact hD u (hus u hu)
        · exact hD u (hus u hu)
      · simp only [UsersPageB.step, UsersPageB.clickRowDelete] at hu
        split at hu
        · next hc =>
            simp only [Option.some.injEq] at hu
            subst hu
            refine ⟨by simpa [UsersPageB.rowDeleteDisabled] using hc.2,
                    hD _ (hus _ hc.1)⟩
        · exact hkeep u hu
  | rowRoleChange v =>
      refine ⟨fun u hu => ?_, fun u hu => ?_⟩
      · simp only [UsersPageB.step, UsersPageB.clickRowRoleChange] at hu
        split at hu
        · exact hD u (hus u hu)
        · exact hD u (hus u hu)
      · simp only [UsersPageB.step, UsersPageB.clickRowRoleChange] at hu
        split at hu
        · exact hkeep u hu
        · exact hkeep u hu
  | confirmDelete dr ru rm =>
      refine ⟨fun u hu => ?_, fun u hu => ?_⟩
      · simp only [UsersPageB.step, UsersPageB.clickConfirmDelete] at hu
        split at hu
        · exact hD u (hus u hu)
        · rcases hdtv : s.deleteTarget with _ | t
          · simp only [UsersPageB.handleDelete, hdtv] at hu
            exact hD u (hus u hu)
          · cases dr with
            | ok u0 =>
                cases ru with
                | ok d =>
                    cases rm with
                    | ok me =>
                        simp only [UsersPageB.handleDelete, hdtv,
                                   UsersPageB.fetchData] at hu
                        exact List.mem_append_right _ hu
                    | error e0 =>
                        simp only [UsersPageB.handleDelete, hdtv,
                                   UsersPageB.fetchData] at hu
                        exact hD u (hus u hu)
                | error e0 =>
                    cases rm <;>
                      · simp only [UsersPageB.handleDelete, hdtv,
                                   UsersPageB.fetchData] at hu
                        exact hD u (hus u hu)
            | error e0 =>
                simp only [UsersPageB.handleDelete, hdtv] at hu
                exact hD u (hus u hu)
      · simp only [UsersPageB.step, UsersPageB.clickConfirmDelete] at hu
        split at hu
        · exact hkeep u hu
        · rcases hdtv : s.deleteTarget with _ | t
          · simp only [UsersPageB.handleDelete, hdtv] at hu
            exact absurd hu (by simp)
          · cases dr with
            | ok u0 =>
                cases ru <;> cases rm <;>
                  simp [UsersPageB.handleDelete, hdtv, UsersPageB.fetchData] at hu
            | error e0 =>
                simp only [UsersPageB.handleDelete, hdtv, Option.some.injEq] at hu
                obtain ⟨h1, h2⟩ := hdt t hdtv
                exact hu ▸ ⟨h1, hD t h2⟩
  | confirmRoleChange ur ru rm =>
      refine ⟨fun u hu => ?_, fun u hu => ?_⟩
      · simp only [UsersPageB.step, UsersPageB.clickConfirmRoleChange] at hu
        split at hu
        · exact hD u (hus u hu)
        · rcases hrt : s.roleChangeTarget with _ | t
          · simp only [UsersPageB.handleRoleChange, hrt] at hu
            exact hD u (hus u hu)
          · cases ur with
            | ok u0 =>
                cases ru with
                | ok d =>
                    cases rm with
                    | ok me =>
                        simp only [UsersPageB.handleRoleChange, hrt,
                                   UsersPageB.fetchData] at hu
                        exact List.mem_append_right _ hu
                    | error e0 =>
                        simp only [UsersPageB.handleRoleChange, hrt,
                                   UsersPageB.fetchData] at hu
                        exact hD u (hus u hu)
                | error e0 =>
                    cases rm <;>
                      · simp only [UsersPageB.handleRoleChange, hrt,
                                   UsersPageB.fetchData] at hu
                        exact hD u (hus u hu)
            | error e0 =>
                simp only [UsersPageB.handleRoleChange, hrt] at hu
                exact hD u (hus u hu)
      · simp only [UsersPageB.step, UsersPageB.clickConfirmRoleChange] at hu
        split at hu
        · exact hkeep u hu
        · rcases hrt : s.roleChangeTarget with _ | t
          · simp only [UsersPageB.handleRoleChange, hrt] at hu
            exact hkeep u hu
          · cases ur with
            | ok u0 =>
                cases ru <;> cases rm <;>
                  · simp only [UsersPageB.handleRoleChange, hrt,
                               UsersPageB.fetchData] at hu
                    exact hkeep u hu
            | error e0 =>
                simp only [UsersPageB.handleRoleChange, hrt] at hu
                exact hkeep u hu
  | closeDeleteDialog =>
      refine ⟨fun u hu => hD u (hus u hu), fun u hu => ?_⟩
      simp [UsersPageB.step] at hu
  | closeRoleDialog =>
      exact ⟨fun u hu => hD u (hus u hu), fun u hu => hkeep u hu⟩

/-- Under the invariant, any deleteUser call a single part_002 UsersPage
event issues carries the id of a delivered non-admin user record. -/
theorem UsersPageB.step_deleteUser_nonadminB {D : List User} {s : UsersBState}
    (h : UsersPageB.InvB D s) (e : UsersBEvent) (i : Nat)
    (hm : ApiCall.deleteUser i ∈ (UsersPageB.step s e).2) :
    ∃ u : User, u ∈ D ∧ u.is_admin = false ∧ u.id = i := by
  cases e with
  | load ru rm =>
      cases ru <;> cases rm <;> simp [UsersPageB.step, UsersPageB.fetchData] at hm
  | rowDelete v => simp [UsersPageB.step] at hm
  | rowRoleChange v => simp [UsersPageB.step] at hm
  | closeDeleteDialog => simp [UsersPageB.step] at hm
  | closeRoleDialog => simp [UsersPageB.step] at hm
  | confirmDelete dr ru rm =>
      simp only [UsersPageB.step, UsersPageB.clickConfirmDelete] at hm
      split at hm
      · simp at hm
      · rcases hdt : s.deleteTarget with _ | t
        · simp [UsersPageB.handleDelete, hdt] at hm
        · obtain ⟨h1, h2⟩ := h.2 t hdt
          refine ⟨t, h2, h1, ?_⟩
          cases dr with
          | ok u0 =>
              cases ru <;> cases rm <;>
                · simp [UsersPageB.handleDelete, hdt, UsersPageB.fetchData] at hm
                  exact hm.symm
          | error e0 =>
              simp [UsersPageB.handleDelete, hdt] at hm
              exact hm.symm
  | confirmRoleChange ur ru rm =>
      simp only [UsersPageB.step, UsersPageB.clickConfirmRoleChange] at hm
      split at hm
      · simp at hm
      · rcases hrt : s.roleChangeTarget with _ | t
        · simp [UsersPageB.handleRoleChange, hrt] at hm
        · cases ur with
          | ok u0 =>
              cases ru <;> cases rm <;>
                simp [UsersPageB.handleRoleChange, hrt, UsersPageB.fetchData] at hm
          | error e0 =>
              simp [UsersPageB.handleRoleChange, hrt] at hm

/-- Under the invariant, any deleteUser call a part_002 UsersPage event
sequence issues carries the id of a user record delivered before or
during the sequence, whose is_admin flag is false. -/
theorem UsersPageB.run_deleteUser_nonadminB {D : List User} {s : UsersBState}
    (h : UsersPageB.InvB D s) (events : List UsersBEvent) (i : Nat)
    (hm : ApiCall.deleteUser i ∈ (UsersPageB.run s events).2) :
    ∃ u : User, u ∈ D ++ UsersPageB.deliveredUsersB events ∧
      u.is_admin = false ∧ u.id = i := by
  induction events generalizing s D with
  | nil => simp [UsersPageB.run] at hm
  | cons e es ih =>
      simp only [UsersPageB.run, List.mem_append] at hm
      rcases hm with hm | hm
      · obtain ⟨u, hu, h1, h2⟩ := UsersPageB.step_deleteUser_nonadminB h e i hm
        exact ⟨u, List.mem_append_left _ hu, h1, h2⟩
      · obtain ⟨u, hu, h1, h2⟩ := ih (UsersPageB.step_invB h e) hm
        refine ⟨u, ?_, h1, h2⟩
        simp only [UsersPageB.deliveredUsersB, List.mem_append] at hu ⊢
        tauto

/-- C9: on both users admin screens the per-row delete trigger is
disabled exactly for users whose is_admin flag is true, and consequently,
along every event sequence from the mounted screen, every deleteUser call
issued carries the id of one of the user records the server delivered
during that sequence whose is_admin flag is false; in particular a screen
whose delivered records are all admins can never issue a deleteUser call:
admins are undeletable through the UI. -/
theorem admin_users_undeletable_via_ui :
    (∀ u : User, u.is_admin = true → UsersPage.rowDeleteDisabled u = true) ∧
    (∀ u : User, u.is_admin = true → UsersPageB.rowDeleteDisabled u = true) ∧
    (∀ (events : List UsersEvent) (i : Nat),
        ApiCall.deleteUser i ∈ (UsersPage.run UsersState.init events).2 →
        ∃ u : User, u ∈ UsersPage.deliveredUsers events ∧
          u.is_admin = false ∧ u.id = i) ∧
    (∀ (events : List UsersEvent) (i : Nat),
        (∀ u : User, u ∈ UsersPage.deliveredUsers events → u.is_admin = true) →
        ApiCall.deleteUser i ∉ (UsersPage.run UsersState.init events).2) ∧
    (∀ (events : List UsersBEvent) (i : Nat),
        ApiCall.deleteUser i ∈ (UsersPageB.run UsersBState.init events).2 →
        ∃ u : User, u ∈ UsersPageB.deliveredUsersB events ∧
          u.is_admin = false ∧ u.id = i) ∧
    (∀ (events : List UsersBEvent) (i : Nat),
        (∀ u : User, u ∈ UsersPageB.deliveredUsersB events → u.is_admin = true) →
        ApiCall.deleteUser i ∉ (UsersPageB.run UsersBState.init events).2) := by
  have hinitA : UsersPage.Inv [] UsersState.init := by
    constructor
    · intro u hu; simp [UsersState.init] at hu
    · intro u hu; simp [UsersState.init] at hu
  have hinitB : UsersPageB.InvB [] UsersBState.init := by
    constructor
    · intro u hu; simp [UsersBState.init] at hu
    · intro u hu; simp [UsersBState.init] at hu
  have hA : ∀ (events : List UsersEvent) (i : Nat),
      ApiCall.deleteUser i ∈ (UsersPage.run UsersState.init events).2 →
      ∃ u : User, u ∈ UsersPage.deliveredUsers events ∧
        u.is_admin = false ∧ u.id = i := by
    intro events i hm
    obtain ⟨u, hu, h1, h2⟩ := UsersPage.run_deleteUser_nonadmin hinitA events i hm
    exact ⟨u, by simpa using hu, h1, h2⟩
  have hB : ∀ (events : List UsersBEvent) (i : Nat),
      ApiCall.deleteUser i ∈ (UsersPageB.run UsersBState.init events).2 →
      ∃ u : User, u ∈ UsersPageB.deliveredUsersB events ∧
        u.is_admin = false ∧ u.id = i := by
    intro events i hm
    obtain ⟨u, hu, h1, h2⟩ := UsersPageB.run_deleteUser_nonadminB hinitB events i hm
    exact ⟨u, by simpa using hu, h1, h2⟩
  refine ⟨fun u h => h, fun u h => h, hA, ?_, hB, ?_⟩
  · intro events i hall hm
    obtain ⟨u, hu, h1, _⟩ := hA events i hm
    exact absurd (hall u hu) (by simp [h1])
  · intro events i hall hm
    obtain ⟨u, hu, h1, _⟩ := hB events i hm
    exact absurd (hall u hu) (by simp [h1])

/-- C9 witness: the delete trigger is disabled for a concrete admin; a
concrete trace that loads one member row and confirms its deletion
issues a deleteUser call whose target is a delivered non-admin record;
and a concrete trace whose only delivered record is an admin issues no
deleteUser call at all. -/
theorem admin_users_undeletable_via_ui_witness :
    UsersPage.rowDeleteDisabled sampleUserAdmin = true ∧
    (∃ u : User,
        u ∈ UsersPage.deliveredUsers
              [UsersEvent.load (.ok [sampleUserMember]),
               UsersEvent.rowDelete sampleUserMember,
               UsersEvent.confirmDelete (.ok ()) (.ok [])] ∧
        u.is_admin = false ∧ u.id = 1) ∧
    ApiCall.deleteUser 2 ∉
      (UsersPage.run UsersState.init
          [UsersEvent.load (.ok [sampleUserAdmin]),
           UsersEvent.rowDelete sampleUserAdmin,
           UsersEvent.confirmDelete (.ok ()) (.ok [])]).2 ∧
    (∃ u : User,
        u ∈ UsersPageB.deliveredUsersB
              [UsersBEvent.load (.ok [sampleUserMember]) (.ok sampleUserAdmin),
               UsersBEvent.rowDelete sampleUserMember,
               UsersBEvent.confirmDelete (.ok ()) (.ok []) (.ok sampleUserAdmin)] ∧
        u.is_admin = false ∧ u.id = 1) :=
  ⟨admin_users_undeletable_via_ui.1 sampleUserAdmin (by decide),
   admin_users_undeletable_via_ui.2.2.1 _ 1 (by decide),
   admin_users_undeletable_via_ui.2.2.2.1 _ 2 (by decide),
   admin_users_undeletable_via_ui.2.2.2.2.1 _ 1 (by decide)⟩
